import Mathlib

/-!
The solve-session driver `eval_AMGX`.

A shallow embedding of `src/eval_AMGX.cpp`.  The driver is straight-line code
around calls into the AMGX C library, so the embedding is a small process
monad (standard output, standard error, the log of library calls, and early
termination through `exit`) in which `check_amgx_error` and `main` are written
statement by statement.

The library itself is external.  It is represented by `Stubs`: one response
per call site (the status the call returns and whatever it leaves in its
output parameters).  Every call site of `main` runs at most once, so a run
against any library, stateful or not, is a run against one such record.
-/

namespace EvalAMGX

/-! ## Library types (amgx_c.h) -/

/-- Status code returned by every library call (`AMGX_RC`). -/
abbrev AMGX_RC := Nat

/-- The success status, first member of the `AMGX_RC` enumeration. -/
def AMGX_RC_OK : AMGX_RC := 0

/-- An opaque library handle, as the pointer value it holds (0 is the null
pointer, with which `main` initialises its six handle variables). -/
abbrev Handle := Nat

/-- Precision and storage mode tags; the driver only uses `AMGX_mode_dDDI`. -/
inductive AMGX_Mode where
  | AMGX_mode_dDDI
  deriving DecidableEq, Repr

/-- Process exit status `EXIT_SUCCESS` of `<cstdlib>`. -/
def EXIT_SUCCESS : Int := 0

/-- Process exit status `EXIT_FAILURE` of `<cstdlib>`. -/
def EXIT_FAILURE : Int := 1

/-! ## Observable events -/

/-- One call into the library, with the handle and scalar arguments passed by
value.  For the six creation calls `out` is the value the call leaves in the
handle variable whose address it was given. -/
inductive Call where
  | init
  | get_api_version
  | get_error_string (rc : AMGX_RC) (buf_len : Nat)
  | config_create_from_file (out : Handle) (path : String)
  | resources_create_simple (out : Handle) (cfg : Handle)
  | solver_create (out : Handle) (rsrc : Handle) (mode : AMGX_Mode) (cfg : Handle)
  | matrix_create (out : Handle) (rsrc : Handle) (mode : AMGX_Mode)
  | vector_create (out : Handle) (rsrc : Handle) (mode : AMGX_Mode)
  | read_system (mtx : Handle) (rhs : Handle) (sol : Handle) (path : String)
  | solver_setup (slv : Handle) (mtx : Handle)
  | solver_solve (slv : Handle) (rhs : Handle) (sol : Handle)
  | solver_get_iterations_number (slv : Handle)
  | solver_destroy (slv : Handle)
  | matrix_destroy (mtx : Handle)
  | vector_destroy (vec : Handle)
  | resources_destroy (rsrc : Handle)
  | config_destroy (cfg : Handle)
  | finalize
  deriving DecidableEq, Repr

/-- What a process has done so far. -/
structure World where
  cout : String
  cerr : String
  trace : List Call
  deriving DecidableEq, Repr

/-- Result of running a piece of the program: it either falls through with a
value or has terminated the process with an exit status. -/
inductive Res (α : Type) where
  | ret (a : α) (w : World)
  | exited (status : Int) (w : World)

/-- A piece of the program. -/
def Proc (α : Type) : Type := World → Res α

/-- Sequencing: nothing runs after the process has exited. -/
def Proc.bind {α β : Type} (m : Proc α) (f : α → Proc β) : Proc β := fun w =>
  match m w with
  | .ret a w1 => f a w1
  | .exited c w1 => .exited c w1

instance : Monad Proc where
  pure a := fun w => .ret a w
  bind := Proc.bind

/-- The call `exit(status)`. -/
def exit {α : Type} (status : Int) : Proc α := fun w => .exited status w

/-- Insertion into `std::cout`. -/
def cout (text : String) : Proc Unit := fun w => .ret () { w with cout := w.cout ++ text }

/-- Insertion into `std::cerr`. -/
def cerr (text : String) : Proc Unit := fun w => .ret () { w with cerr := w.cerr ++ text }

/-- The manipulator `std::endl`: a newline (the flush is not observable here). -/
def endl : String := "\n"

/-- Record one library call. -/
def call (c : Call) : Proc Unit := fun w => .ret () { w with trace := w.trace ++ [c] }

/-! ## The library, as scripted responses -/

/-- The response at each call site of `main`.  A field `rc_*` is the status the
call returns; the other fields are the values found in the output parameters
after the call (for a handle: what the call stored, or the null pointer the
variable was initialised with if it stored nothing).  `patch` is never written
by any call: it is the indeterminate value of the uninitialised local of that
name. -/
structure Stubs where
  rc_init : AMGX_RC
  rc_get_api_version : AMGX_RC
  major : Int
  minor : Int
  patch : Int
  rc_get_error_string : AMGX_RC
  error_string : AMGX_RC → Nat → String
  rc_config_create : AMGX_RC
  config : Handle
  rc_resources_create : AMGX_RC
  rsrc : Handle
  rc_solver_create : AMGX_RC
  solver : Handle
  rc_matrix_create : AMGX_RC
  A : Handle
  rc_vector_create_x : AMGX_RC
  x : Handle
  rc_vector_create_b : AMGX_RC
  b : Handle
  rc_read_system : AMGX_RC
  rc_solver_setup : AMGX_RC
  rc_solver_solve : AMGX_RC
  rc_get_iterations : AMGX_RC
  iters : Int
  rc_solver_destroy : AMGX_RC
  rc_matrix_destroy : AMGX_RC
  rc_vector_destroy_x : AMGX_RC
  rc_vector_destroy_b : AMGX_RC
  rc_resources_destroy : AMGX_RC
  rc_config_destroy : AMGX_RC
  rc_finalize : AMGX_RC

/-- `AMGX_initialize()`. -/
def AMGX_initialize (s : Stubs) : Proc AMGX_RC := do
  call .init
  pure s.rc_init

/-- `AMGX_get_api_version(&major, &minor)`: status and the two values written. -/
def AMGX_get_api_version (s : Stubs) : Proc (AMGX_RC × Int × Int) := do
  call .get_api_version
  pure (s.rc_get_api_version, s.major, s.minor)

/-- `AMGX_get_error_string(rc, buf, buf_len)`: status and the text left in `buf`. -/
def AMGX_get_error_string (s : Stubs) (rc : AMGX_RC) (buf_len : Nat) :
    Proc (AMGX_RC × String) := do
  call (.get_error_string rc buf_len)
  pure (s.rc_get_error_string, s.error_string rc buf_len)

/-- `AMGX_config_create_from_file(&cfg, path)`. -/
def AMGX_config_create_from_file (s : Stubs) (path : String) : Proc (AMGX_RC × Handle) := do
  call (.config_create_from_file s.config path)
  pure (s.rc_config_create, s.config)

/-- `AMGX_resources_create_simple(&rsrc, cfg)`. -/
def AMGX_resources_create_simple (s : Stubs) (cfg : Handle) : Proc (AMGX_RC × Handle) := do
  call (.resources_create_simple s.rsrc cfg)
  pure (s.rc_resources_create, s.rsrc)

/-- `AMGX_solver_create(&solver, rsrc, mode, cfg)`. -/
def AMGX_solver_create (s : Stubs) (rsrc : Handle) (mode : AMGX_Mode) (cfg : Handle) :
    Proc (AMGX_RC × Handle) := do
  call (.solver_create s.solver rsrc mode cfg)
  pure (s.rc_solver_create, s.solver)

/-- `AMGX_matrix_create(&A, rsrc, mode)`. -/
def AMGX_matrix_create (s : Stubs) (rsrc : Handle) (mode : AMGX_Mode) :
    Proc (AMGX_RC × Handle) := do
  call (.matrix_create s.A rsrc mode)
  pure (s.rc_matrix_create, s.A)

/-- `AMGX_vector_create(&vec, rsrc, mode)`.  It is called at two sites (for `x`
and for `b`), so the response `resp` of the site is passed in. -/
def AMGX_vector_create (resp : AMGX_RC × Handle) (rsrc : Handle) (mode : AMGX_Mode) :
    Proc (AMGX_RC × Handle) := do
  call (.vector_create resp.2 rsrc mode)
  pure resp

/-- `AMGX_read_system(A, b, x, path)`. -/
def AMGX_read_system (s : Stubs) (mtx rhs sol : Handle) (path : String) : Proc AMGX_RC := do
  call (.read_system mtx rhs sol path)
  pure s.rc_read_system

/-- `AMGX_solver_setup(solver, A)`. -/
def AMGX_solver_setup (s : Stubs) (slv mtx : Handle) : Proc AMGX_RC := do
  call (.solver_setup slv mtx)
  pure s.rc_solver_setup

/-- `AMGX_solver_solve(solver, b, x)`. -/
def AMGX_solver_solve (s : Stubs) (slv rhs sol : Handle) : Proc AMGX_RC := do
  call (.solver_solve slv rhs sol)
  pure s.rc_solver_solve

/-- `AMGX_solver_get_iterations_number(solver, &iters)`. -/
def AMGX_solver_get_iterations_number (s : Stubs) (slv : Handle) : Proc (AMGX_RC × Int) := do
  call (.solver_get_iterations_number slv)
  pure (s.rc_get_iterations, s.iters)

/-- `AMGX_solver_destroy(solver)`. -/
def AMGX_solver_destroy (s : Stubs) (slv : Handle) : Proc AMGX_RC := do
  call (.solver_destroy slv)
  pure s.rc_solver_destroy

/-- `AMGX_matrix_destroy(A)`. -/
def AMGX_matrix_destroy (s : Stubs) (mtx : Handle) : Proc AMGX_RC := do
  call (.matrix_destroy mtx)
  pure s.rc_matrix_destroy

/-- `AMGX_vector_destroy(vec)`.  It is called at two sites (for `x` and for
`b`), so the status `rc` the site returns is passed in. -/
def AMGX_vector_destroy (rc : AMGX_RC) (vec : Handle) : Proc AMGX_RC := do
  call (.vector_destroy vec)
  pure rc

/-- `AMGX_resources_destroy(rsrc)`. -/
def AMGX_resources_destroy (s : Stubs) (rsrc : Handle) : Proc AMGX_RC := do
  call (.resources_destroy rsrc)
  pure s.rc_resources_destroy

/-- `AMGX_config_destroy(config)`. -/
def AMGX_config_destroy (s : Stubs) (cfg : Handle) : Proc AMGX_RC := do
  call (.config_destroy cfg)
  pure s.rc_config_destroy

/-- `AMGX_finalize()`. -/
def AMGX_finalize (s : Stubs) : Proc AMGX_RC := do
  call .finalize
  pure s.rc_finalize

/-! ## The driver -/

/-- `check_amgx_error` (lines 5-12): on a status other than `AMGX_RC_OK`, fetch
the library's text for it into a 256-byte buffer, report on standard error and
terminate the process. -/
def check_amgx_error (s : Stubs) (rc : AMGX_RC) (msg : String) : Proc Unit :=
  if rc ≠ AMGX_RC_OK then do
    let (_, err_string) ← AMGX_get_error_string s rc 256
    cerr ("Error: " ++ msg ++ " - " ++ err_string ++ endl)
    exit EXIT_FAILURE
  else
    pure ()

/-- The command line: `argv[0]` is the program name the hosting environment
supplies, `args` are `argv[1]`, `argv[2]`, ...  An environment that passes no
program name at all (`argc = 0`, `argv[0]` null) is not represented: line 21
would insert a null pointer into `std::cerr`. -/
structure Argv where
  prog : String
  args : List String

/-- The parameter `argc` of `main`. -/
def Argv.argc (argv : Argv) : Nat := 1 + argv.args.length

/-- `main` (lines 14-118).  The test `argc < 2` is the match on `argv.args`:
it is empty exactly when `argc < 2`, and otherwise its head is `argv[1]`. -/
def main (s : Stubs) (argv : Argv) : Proc Int :=
  match argv.args with
  | [] => do
    cerr ("Usage: " ++ argv.prog ++ " <config_file.json>" ++ endl)
    pure EXIT_FAILURE
  | config_file :: _ => do
    let system_file := "../data/AMGX_system.mtx"
    let rc ← AMGX_initialize s
    check_amgx_error s rc "AMGX_initialize error:"
    let (_, major, minor) ← AMGX_get_api_version s
    cout ("Using AMGX API version: " ++ toString major ++ "." ++ toString minor ++ "."
      ++ toString s.patch ++ endl)
    let (rc, config) ← AMGX_config_create_from_file s config_file
    check_amgx_error s rc "AMGX_config_create error:"
    let (_, rsrc) ← AMGX_resources_create_simple s config
    let (rc, solver) ← AMGX_solver_create s rsrc .AMGX_mode_dDDI config
    check_amgx_error s rc "AMGX_solver_create:"
    let (_, A) ← AMGX_matrix_create s rsrc .AMGX_mode_dDDI
    let (_, x) ← AMGX_vector_create (s.rc_vector_create_x, s.x) rsrc .AMGX_mode_dDDI
    let (_, b) ← AMGX_vector_create (s.rc_vector_create_b, s.b) rsrc .AMGX_mode_dDDI
    let rc ← AMGX_read_system s A b x system_file
    check_amgx_error s rc "AMGX_read_system:"
    let rc ← AMGX_solver_setup s solver A
    check_amgx_error s rc "AMGX_solver_setup:"
    let rc ← AMGX_solver_solve s solver b x
    check_amgx_error s rc "AMGX_solver_setup:"
    let (_, iters) ← AMGX_solver_get_iterations_number s solver
    cout ("Number of iterations: " ++ toString iters ++ endl)
    let _ ← AMGX_solver_destroy s solver
    let _ ← AMGX_matrix_destroy s A
    let _ ← AMGX_vector_destroy s.rc_vector_destroy_x x
    let _ ← AMGX_vector_destroy s.rc_vector_destroy_b b
    let _ ← AMGX_resources_destroy s rsrc
    let _ ← AMGX_config_destroy s config
    let _ ← AMGX_finalize s
    cout ("AMGX solve complete." ++ endl)
    pure EXIT_SUCCESS

/-- What an observer of the process sees once it has ended. -/
structure Outcome where
  exit_code : Int
  cout : String
  cerr : String
  trace : List Call
  deriving DecidableEq, Repr

/-- Run the program from a fresh process: returning from `main` and calling
`exit` both end the process with the given status. -/
def run (s : Stubs) (argv : Argv) : Outcome :=
  match main s argv { cout := "", cerr := "", trace := [] } with
  | .ret c w => { exit_code := c, cout := w.cout, cerr := w.cerr, trace := w.trace }
  | .exited c w => { exit_code := c, cout := w.cout, cerr := w.cerr, trace := w.trace }

/-- A library in which every call succeeds, with six distinct handles. -/
def okStubs : Stubs where
  rc_init := AMGX_RC_OK
  rc_get_api_version := AMGX_RC_OK
  major := 2
  minor := 4
  patch := 0
  rc_get_error_string := AMGX_RC_OK
  error_string := fun rc _ => "rc " ++ toString rc
  rc_config_create := AMGX_RC_OK
  config := 1
  rc_resources_create := AMGX_RC_OK
  rsrc := 2
  rc_solver_create := AMGX_RC_OK
  solver := 3
  rc_matrix_create := AMGX_RC_OK
  A := 4
  rc_vector_create_x := AMGX_RC_OK
  x := 5
  rc_vector_create_b := AMGX_RC_OK
  b := 6
  rc_read_system := AMGX_RC_OK
  rc_solver_setup := AMGX_RC_OK
  rc_solver_solve := AMGX_RC_OK
  rc_get_iterations := AMGX_RC_OK
  iters := 17
  rc_solver_destroy := AMGX_RC_OK
  rc_matrix_destroy := AMGX_RC_OK
  rc_vector_destroy_x := AMGX_RC_OK
  rc_vector_destroy_b := AMGX_RC_OK
  rc_resources_destroy := AMGX_RC_OK
  rc_config_destroy := AMGX_RC_OK
  rc_finalize := AMGX_RC_OK

/-- The command line `eval_AMGX cfg.json`. -/
def argvCfg : Argv := { prog := "eval_AMGX", args := ["cfg.json"] }

/-- The command line `eval_AMGX`, without argument. -/
def argvNone : Argv := { prog := "eval_AMGX", args := [] }

/-! ## Vocabulary for the statements -/

/-- The six calls whose status `main` passes to `check_amgx_error` all succeed. -/
def Stubs.checkedOk (s : Stubs) : Prop :=
  s.rc_init = AMGX_RC_OK ∧ s.rc_config_create = AMGX_RC_OK ∧
  s.rc_solver_create = AMGX_RC_OK ∧ s.rc_read_system = AMGX_RC_OK ∧
  s.rc_solver_setup = AMGX_RC_OK ∧ s.rc_solver_solve = AMGX_RC_OK

instance (s : Stubs) : Decidable s.checkedOk := by
  unfold Stubs.checkedOk; infer_instance

/-- Resource creation, matrix creation and the two vector creations succeed. -/
def Stubs.createOk (s : Stubs) : Prop :=
  s.rc_resources_create = AMGX_RC_OK ∧ s.rc_matrix_create = AMGX_RC_OK ∧
  s.rc_vector_create_x = AMGX_RC_OK ∧ s.rc_vector_create_b = AMGX_RC_OK

instance (s : Stubs) : Decidable s.createOk := by
  unfold Stubs.createOk; infer_instance

/-- The version line written to standard output. -/
def banner (s : Stubs) : String :=
  "Using AMGX API version: " ++ toString s.major ++ "." ++ toString s.minor ++ "."
    ++ toString s.patch ++ endl

/-- The report `check_amgx_error` writes for status `rc` at a site labelled `msg`. -/
def errorLine (s : Stubs) (rc : AMGX_RC) (msg : String) : String :=
  "Error: " ++ msg ++ " - " ++ s.error_string rc 256 ++ endl

/-- The library calls of a run that gets through the configuration load. -/
def callsToConfig (s : Stubs) (cfg : String) : List Call :=
  [.init, .get_api_version, .config_create_from_file s.config cfg]

/-- The library calls of a run up to solver creation. -/
def callsToSolver (s : Stubs) (cfg : String) : List Call :=
  callsToConfig s cfg ++
    [.resources_create_simple s.rsrc s.config,
     .solver_create s.solver s.rsrc .AMGX_mode_dDDI s.config]

/-- The library calls of a run up to the system read. -/
def callsToRead (s : Stubs) (cfg : String) : List Call :=
  callsToSolver s cfg ++
    [.matrix_create s.A s.rsrc .AMGX_mode_dDDI,
     .vector_create s.x s.rsrc .AMGX_mode_dDDI,
     .vector_create s.b s.rsrc .AMGX_mode_dDDI,
     .read_system s.A s.b s.x "../data/AMGX_system.mtx"]

/-- The library calls of a run up to the solve. -/
def callsToSolve (s : Stubs) (cfg : String) : List Call :=
  callsToRead s cfg ++ [.solver_setup s.solver s.A, .solver_solve s.solver s.b s.x]

/-- The seven calls of lines 106-114. -/
def teardownCalls (s : Stubs) : List Call :=
  [.solver_destroy s.solver, .matrix_destroy s.A, .vector_destroy s.x, .vector_destroy s.b,
   .resources_destroy s.rsrc, .config_destroy s.config, .finalize]

/-- Outcome of a run that `check_amgx_error` ends on status `rc`. -/
def fatal (s : Stubs) (rc : AMGX_RC) (msg : String) (out : String) (calls : List Call) :
    Outcome :=
  { exit_code := EXIT_FAILURE, cout := out, cerr := errorLine s rc msg,
    trace := calls ++ [.get_error_string rc 256] }

/-- The call releases a handle (one of the five `*_destroy` entry points). -/
def Call.isDestroy : Call → Bool
  | .solver_destroy _ => true
  | .matrix_destroy _ => true
  | .vector_destroy _ => true
  | .resources_destroy _ => true
  | .config_destroy _ => true
  | _ => false

/-- The call is `AMGX_finalize`. -/
def Call.isFinalize : Call → Bool
  | .finalize => true
  | _ => false

/-- The call is `AMGX_get_error_string`, which only `check_amgx_error` makes. -/
def Call.isErrorQuery : Call → Bool
  | .get_error_string _ _ => true
  | _ => false

/-- The call is one of the four creation calls whose status `main` discards. -/
def Call.isUncheckedCreate : Call → Bool
  | .resources_create_simple _ _ => true
  | .matrix_create _ _ _ => true
  | .vector_create _ _ _ => true
  | _ => false

/-- The call works on a prepared solver: setup, solve or the iteration query. -/
def Call.isSolverUse : Call → Bool
  | .solver_setup _ _ => true
  | .solver_solve _ _ _ => true
  | .solver_get_iterations_number _ => true
  | _ => false

/-- The handle a creation call produces. -/
def Call.creates : Call → Option Handle
  | .config_create_from_file out _ => some out
  | .resources_create_simple out _ => some out
  | .solver_create out _ _ _ => some out
  | .matrix_create out _ _ => some out
  | .vector_create out _ _ => some out
  | _ => none

/-- The handle a destroy call releases. -/
def Call.destroys : Call → Option Handle
  | .solver_destroy h => some h
  | .matrix_destroy h => some h
  | .vector_destroy h => some h
  | .resources_destroy h => some h
  | .config_destroy h => some h
  | _ => none

/-- The handle values passed to a call. -/
def Call.passed : Call → List Handle
  | .resources_create_simple _ cfg => [cfg]
  | .solver_create _ rsrc _ cfg => [rsrc, cfg]
  | .matrix_create _ rsrc _ => [rsrc]
  | .vector_create _ rsrc _ => [rsrc]
  | .read_system mtx rhs sol _ => [mtx, rhs, sol]
  | .solver_setup slv mtx => [slv, mtx]
  | .solver_solve slv rhs sol => [slv, rhs, sol]
  | .solver_get_iterations_number slv => [slv]
  | .solver_destroy h => [h]
  | .matrix_destroy h => [h]
  | .vector_destroy h => [h]
  | .resources_destroy h => [h]
  | .config_destroy h => [h]
  | _ => []

/-- Handles in the order the trace creates them. -/
def created (t : List Call) : List Handle := t.filterMap Call.creates

/-- Handles in the order the trace destroys them. -/
def destroyed (t : List Call) : List Handle := t.filterMap Call.destroys

/-- No use after destroy, on a trace: after a call that destroys `h`, no call
is passed `h`. -/
def DestroyIsLastUse (t : List Call) : Prop :=
  ∀ (pre post : List Call) (c : Call) (h : Handle),
    t = pre ++ c :: post → c.destroys = some h → ∀ e ∈ post, h ∉ e.passed

/-- Executable form of `DestroyIsLastUse`. -/
def destroyIsLastUse : List Call → Bool
  | [] => true
  | c :: rest =>
    (match c.destroys with
      | some h => rest.all (fun e => !(e.passed.contains h))
      | none => true) && destroyIsLastUse rest

/-- Each unchecked creation call of the trace is followed by a further library
call, and that call is not the error-string query of `check_amgx_error`. -/
def continuesAfterCreate : List Call → Bool
  | [] => true
  | [c] => !c.isUncheckedCreate
  | c :: d :: rest =>
    (!c.isUncheckedCreate || !d.isErrorQuery) && continuesAfterCreate (d :: rest)

/-- Every call of the straight-line sequence of `main` returns success. -/
def Stubs.sequenceOk (s : Stubs) : Prop :=
  s.checkedOk ∧ s.createOk ∧ s.rc_get_api_version = AMGX_RC_OK ∧
  s.rc_get_iterations = AMGX_RC_OK ∧ s.rc_solver_destroy = AMGX_RC_OK ∧
  s.rc_matrix_destroy = AMGX_RC_OK ∧ s.rc_vector_destroy_x = AMGX_RC_OK ∧
  s.rc_vector_destroy_b = AMGX_RC_OK ∧ s.rc_resources_destroy = AMGX_RC_OK ∧
  s.rc_config_destroy = AMGX_RC_OK ∧ s.rc_finalize = AMGX_RC_OK

instance (s : Stubs) : Decidable s.sequenceOk := by
  unfold Stubs.sequenceOk; infer_instance

/-- Every call made before the solve returns success: initialize, version
query, configuration load, the creation calls, system read and setup. -/
def Stubs.okThroughSetup (s : Stubs) : Prop :=
  s.rc_init = AMGX_RC_OK ∧ s.rc_get_api_version = AMGX_RC_OK ∧
  s.rc_config_create = AMGX_RC_OK ∧ s.rc_solver_create = AMGX_RC_OK ∧ s.createOk ∧
  s.rc_read_system = AMGX_RC_OK ∧ s.rc_solver_setup = AMGX_RC_OK

instance (s : Stubs) : Decidable s.okThroughSetup := by
  unfold Stubs.okThroughSetup; infer_instance

/-- An argument beyond the program name is present. -/
def Argv.present (argv : Argv) : Prop := 2 ≤ argv.argc

instance (argv : Argv) : Decidable argv.present := by
  unfold Argv.present; infer_instance

/-! ## The run, case by case -/

/-- Every run, in closed form: the usage error, one of the six fatal exits of
`check_amgx_error`, or the complete session. -/
theorem run_eq (s : Stubs) (argv : Argv) :
    run s argv =
      match argv.args with
      | [] =>
        { exit_code := EXIT_FAILURE, cout := "",
          cerr := "Usage: " ++ argv.prog ++ " <config_file.json>" ++ endl, trace := [] }
      | cfg :: _ =>
        if s.rc_init ≠ AMGX_RC_OK then
          fatal s s.rc_init "AMGX_initialize error:" "" [.init]
        else if s.rc_config_create ≠ AMGX_RC_OK then
          fatal s s.rc_config_create "AMGX_config_create error:" (banner s) (callsToConfig s cfg)
        else if s.rc_solver_create ≠ AMGX_RC_OK then
          fatal s s.rc_solver_create "AMGX_solver_create:" (banner s) (callsToSolver s cfg)
        else if s.rc_read_system ≠ AMGX_RC_OK then
          fatal s s.rc_read_system "AMGX_read_system:" (banner s) (callsToRead s cfg)
        else if s.rc_solver_setup ≠ AMGX_RC_OK then
          fatal s s.rc_solver_setup "AMGX_solver_setup:" (banner s)
            (callsToRead s cfg ++ [.solver_setup s.solver s.A])
        else if s.rc_solver_solve ≠ AMGX_RC_OK then
          fatal s s.rc_solver_solve "AMGX_solver_setup:" (banner s) (callsToSolve s cfg)
        else
          { exit_code := EXIT_SUCCESS,
            cout := banner s ++ ("Number of iterations: " ++ toString s.iters ++ endl)
              ++ ("AMGX solve complete." ++ endl),
            cerr := "",
            trace := callsToSolve s cfg ++ [.solver_get_iterations_number s.solver]
              ++ teardownCalls s } := by
  cases ha : argv.args with
  | nil => simp [run, main, ha, bind, Proc.bind, pure, cerr]
  | cons cfg rest =>
    simp only []
    split_ifs <;> simp only [ne_eq, not_not] at * <;>
    simp [*, run, main, check_amgx_error, bind, Proc.bind, pure,
      AMGX_initialize, call, cout, cerr, exit, AMGX_get_api_version, AMGX_get_error_string,
      AMGX_config_create_from_file, AMGX_resources_create_simple, AMGX_solver_create,
      AMGX_matrix_create, AMGX_vector_create, AMGX_read_system,
      AMGX_solver_setup, AMGX_solver_solve, AMGX_solver_get_iterations_number,
      AMGX_solver_destroy, AMGX_matrix_destroy, AMGX_vector_destroy,
      AMGX_resources_destroy, AMGX_config_destroy, AMGX_finalize, banner, errorLine, fatal,
      callsToConfig, callsToSolver, callsToRead, callsToSolve, teardownCalls]

/-- The complete session: an argument is present and the six checked calls succeed. -/
theorem run_ok (s : Stubs) (argv : Argv) (cfg : String) (rest : List String)
    (ha : argv.args = cfg :: rest) (hok : s.checkedOk) :
    run s argv =
      { exit_code := EXIT_SUCCESS,
        cout := banner s ++ ("Number of iterations: " ++ toString s.iters ++ endl)
          ++ ("AMGX solve complete." ++ endl),
        cerr := "",
        trace := callsToSolve s cfg ++ [.solver_get_iterations_number s.solver]
          ++ teardownCalls s } := by
  obtain ⟨h1, h2, h3, h4, h5, h6⟩ := hok
  rw [run_eq, ha]
  simp [h1, h2, h3, h4, h5, h6]

/-- Any other run ends with `EXIT_FAILURE` and makes no destroy or finalize call. -/
theorem run_not_ok (s : Stubs) (argv : Argv) (hn : ¬ (argv.present ∧ s.checkedOk)) :
    (run s argv).exit_code = EXIT_FAILURE ∧
    ∀ c ∈ (run s argv).trace, c.isDestroy = false ∧ c.isFinalize = false := by
  rw [run_eq]
  cases ha : argv.args with
  | nil => simp
  | cons cfg rest =>
    have hp : argv.present := by simp only [Argv.present, Argv.argc, ha, List.length_cons]; omega
    simp only []
    split_ifs <;> simp only [ne_eq, not_not] at * <;>
    first
      | (simp [fatal, callsToSolve, callsToRead, callsToSolver, callsToConfig,
          Call.isDestroy, Call.isFinalize]; done)
      | (exfalso; apply hn; refine ⟨hp, ?_⟩; simp [Stubs.checkedOk, *])

/-- The exit status is `EXIT_SUCCESS` exactly on the complete session and
`EXIT_FAILURE` otherwise. -/
theorem exit_code_cases (s : Stubs) (argv : Argv) :
    ((run s argv).exit_code = EXIT_SUCCESS ↔ argv.present ∧ s.checkedOk) ∧
    (¬ (argv.present ∧ s.checkedOk) → (run s argv).exit_code = EXIT_FAILURE) := by
  rw [run_eq]
  cases ha : argv.args with
  | nil => simp [Argv.present, Argv.argc, ha, EXIT_FAILURE, EXIT_SUCCESS]
  | cons cfg rest =>
    simp only []
    split_ifs <;> simp only [ne_eq, not_not] at * <;>
    simp [*, Argv.present, Argv.argc, Stubs.checkedOk, EXIT_FAILURE, EXIT_SUCCESS, fatal]
    omega

/-- A list that ends in its only occurrence of `x` splits around `x` in one way. -/
theorem split_at_last {α : Type} (x : α) (l pre post : List α) (hx : x ∉ l)
    (h : l ++ [x] = pre ++ x :: post) : pre = l ∧ post = [] := by
  induction l generalizing pre with
  | nil =>
    cases pre with
    | nil => simpa using h.symm
    | cons p pre1 =>
      simp at h
  | cons a l ih =>
    cases pre with
    | nil =>
      simp only [List.cons_append, List.nil_append, List.cons.injEq] at h
      exact absurd (h.1 ▸ List.mem_cons_self a l) hx
    | cons p pre1 =>
      simp only [List.cons_append, List.cons.injEq] at h
      have := ih pre1 (fun hm => hx (List.mem_cons_of_mem _ hm)) h.2
      exact ⟨by rw [h.1, this.1], this.2⟩

/-- The executable check decides `DestroyIsLastUse`. -/
theorem destroyIsLastUse_iff (t : List Call) :
    destroyIsLastUse t = true ↔ DestroyIsLastUse t := by
  induction t with
  | nil =>
    simp only [destroyIsLastUse, true_iff]
    intro pre post c h ht
    simp at ht
  | cons a t ih =>
    constructor
    · intro hb pre post c h ht hc e he
      simp only [destroyIsLastUse, Bool.and_eq_true] at hb
      cases pre with
      | nil =>
        simp only [List.nil_append, List.cons.injEq] at ht
        obtain ⟨rfl, rfl⟩ := ht
        have h1 := hb.1
        rw [hc] at h1
        simp only [List.all_eq_true] at h1
        simpa using h1 e he
      | cons p pre1 =>
        simp only [List.cons_append, List.cons.injEq] at ht
        exact (ih.mp hb.2) pre1 post c h ht.2 hc e he
    · intro hp
      simp only [destroyIsLastUse, Bool.and_eq_true]
      refine ⟨?_, ih.mpr ?_⟩
      · cases hc : a.destroys with
        | none => rfl
        | some h =>
          simp only [List.all_eq_true]
          intro e he
          simpa using hp [] t a h rfl hc e he
      · intro pre post c h ht hc e he
        exact hp (a :: pre) post c h (by rw [ht]; rfl) hc e he

/-! ## The claims -/

/-- Claim C1: when `argc < 2` the driver writes the usage message to standard
error, returns `EXIT_FAILURE`, which is nonzero, and makes no library call. -/
theorem C1_no_argument (s : Stubs) (argv : Argv) (h : argv.argc < 2) :
    (run s argv).cerr = "Usage: " ++ argv.prog ++ " <config_file.json>" ++ "\n" ∧
    (run s argv).exit_code = EXIT_FAILURE ∧ (run s argv).exit_code ≠ 0 ∧
    (run s argv).trace = [] := by
  have ha : argv.args = [] := by
    cases hx : argv.args with
    | nil => rfl
    | cons a l => simp only [Argv.argc, hx, List.length_cons] at h; omega
  rw [run_eq, ha]
  simp [endl, EXIT_FAILURE]

/-- Instance of C1 on the command line `eval_AMGX`. -/
theorem C1_no_argument_witness :
    argvNone.argc < 2 ∧
    ((run okStubs argvNone).cerr = "Usage: " ++ argvNone.prog ++ " <config_file.json>" ++ "\n" ∧
    (run okStubs argvNone).exit_code = EXIT_FAILURE ∧ (run okStubs argvNone).exit_code ≠ 0 ∧
    (run okStubs argvNone).trace = []) :=
  ⟨by decide, C1_no_argument okStubs argvNone (by decide)⟩

/-- Claim C2 fails as stated: with an argument present, a failing matrix
creation, or a failing finalize, still gives exit code 0, although not every
library call of the sequence returned success. -/
theorem C2_counterexample :
    ¬ ((run { okStubs with rc_matrix_create := 1 } argvCfg).exit_code = 0 ↔
        argvCfg.present ∧ Stubs.sequenceOk { okStubs with rc_matrix_create := 1 }) ∧
    ¬ ((run { okStubs with rc_finalize := 1 } argvCfg).exit_code = 0 ↔
        argvCfg.present ∧ Stubs.sequenceOk { okStubs with rc_finalize := 1 }) := by
  decide

/-- Claim C2, amended: when resource, matrix and vector creation return
success, the exit code is 0 exactly when an argument is present and the six
checked calls (initialize, configuration load, solver creation, system read,
setup, solve) return success, whatever the version query, the iteration query,
the destroy calls and finalize return; otherwise it is `EXIT_FAILURE`, nonzero. -/
theorem C2_exit_code (s : Stubs) (argv : Argv) (_hc : s.createOk) :
    ((run s argv).exit_code = 0 ↔ argv.present ∧ s.checkedOk) ∧
    (¬ (argv.present ∧ s.checkedOk) →
      (run s argv).exit_code = EXIT_FAILURE ∧ (run s argv).exit_code ≠ 0) := by
  have h := exit_code_cases s argv
  refine ⟨h.1, fun hn => ⟨h.2 hn, ?_⟩⟩
  rw [h.2 hn]; decide

/-- Instance of the amended C2 on an all-success library. -/
theorem C2_exit_code_witness :
    okStubs.createOk ∧
    (((run okStubs argvCfg).exit_code = 0 ↔ argvCfg.present ∧ okStubs.checkedOk) ∧
    (¬ (argvCfg.present ∧ okStubs.checkedOk) →
      (run okStubs argvCfg).exit_code = EXIT_FAILURE ∧ (run okStubs argvCfg).exit_code ≠ 0)) :=
  ⟨by decide, C2_exit_code okStubs argvCfg (by decide)⟩

/-- Claim C3: with an argument present and initialization successful, a
failing configuration load ends the run with `EXIT_FAILURE`, standard error
carries the library text for that status, and the only library call after the
load is the error-string translation. -/
theorem C3_config_failure (s : Stubs) (argv : Argv) (cfg : String) (rest : List String)
    (ha : argv.args = cfg :: rest) (hi : s.rc_init = AMGX_RC_OK)
    (hc : s.rc_config_create ≠ AMGX_RC_OK) :
    (run s argv).exit_code = EXIT_FAILURE ∧
    (run s argv).cerr =
      "Error: AMGX_config_create error: - " ++ s.error_string s.rc_config_create 256 ++ "\n" ∧
    (run s argv).trace =
      [.init, .get_api_version, .config_create_from_file s.config cfg,
       .get_error_string s.rc_config_create 256] := by
  rw [run_eq, ha]
  simp [hi, hc, fatal, errorLine, callsToConfig, endl]

/-- Instance of C3 with the configuration load returning status 7. -/
theorem C3_config_failure_witness :
    (run { okStubs with rc_config_create := 7 } argvCfg).exit_code = EXIT_FAILURE ∧
    (run { okStubs with rc_config_create := 7 } argvCfg).cerr =
      "Error: AMGX_config_create error: - " ++ "rc 7" ++ "\n" ∧
    (run { okStubs with rc_config_create := 7 } argvCfg).trace =
      [.init, .get_api_version, .config_create_from_file 1 "cfg.json",
       .get_error_string 7 256] :=
  C3_config_failure { okStubs with rc_config_create := 7 } argvCfg "cfg.json" [] rfl rfl
    (by decide)

/-- Claim C4: when every call up to and including setup succeeds and solve
fails, the run ends with `EXIT_FAILURE` and its trace has no destroy call and no
finalize call. -/
theorem C4_solve_failure (s : Stubs) (argv : Argv) (hp : argv.present)
    (hs : s.okThroughSetup) (hf : s.rc_solver_solve ≠ AMGX_RC_OK) :
    (run s argv).exit_code = EXIT_FAILURE ∧
    (∀ c ∈ (run s argv).trace, c.isDestroy = false ∧ c.isFinalize = false) := by
  obtain ⟨h1, -, h2, h3, -, h4, h5⟩ := hs
  rw [run_eq]
  cases ha : argv.args with
  | nil => simp [Argv.present, Argv.argc, ha] at hp
  | cons cfg rest =>
    simp [h1, h2, h3, h4, h5, hf, fatal, callsToSolve, callsToRead, callsToSolver,
      callsToConfig, Call.isDestroy, Call.isFinalize]

/-- Instance of C4 with solve returning status 3. -/
theorem C4_solve_failure_witness :
    (run { okStubs with rc_solver_solve := 3 } argvCfg).exit_code = EXIT_FAILURE ∧
    (∀ c ∈ (run { okStubs with rc_solver_solve := 3 } argvCfg).trace,
      c.isDestroy = false ∧ c.isFinalize = false) :=
  C4_solve_failure { okStubs with rc_solver_solve := 3 } argvCfg (by decide) (by decide)
    (by decide)

/-- Claim C5 fails as stated: with six distinct handles the destroy order is
not the reverse of the creation order. -/
theorem C5_counterexample :
    destroyed (run okStubs argvCfg).trace ≠ (created (run okStubs argvCfg).trace).reverse := by
  decide

/-- Claim C5, amended: on a run where the checked calls and the creation
calls succeed, the handles are created in the order configuration, resources,
solver, matrix, x, b and destroyed, once each, in the order solver, matrix, x,
b, resources, configuration; finalize is the last call, after the last
destroy, and the exit code is 0. -/
theorem C5_teardown_order (s : Stubs) (argv : Argv) (cfg : String) (rest : List String)
    (ha : argv.args = cfg :: rest) (hok : s.checkedOk) (_hc : s.createOk) :
    created (run s argv).trace = [s.config, s.rsrc, s.solver, s.A, s.x, s.b] ∧
    destroyed (run s argv).trace = [s.solver, s.A, s.x, s.b, s.rsrc, s.config] ∧
    (destroyed (run s argv).trace).Perm (created (run s argv).trace) ∧
    (∃ pre, (run s argv).trace = pre ++
      [.solver_destroy s.solver, .matrix_destroy s.A, .vector_destroy s.x,
       .vector_destroy s.b, .resources_destroy s.rsrc, .config_destroy s.config, .finalize] ∧
      ∀ c ∈ pre, c.isDestroy = false ∧ c.isFinalize = false) ∧
    (run s argv).exit_code = 0 := by
  rw [run_ok s argv cfg rest ha hok]
  have hc : created (callsToSolve s cfg ++ [.solver_get_iterations_number s.solver]
      ++ teardownCalls s) = [s.config, s.rsrc, s.solver, s.A, s.x, s.b] := by
    simp [created, callsToSolve, callsToRead, callsToSolver, callsToConfig, teardownCalls,
      Call.creates]
  have hd : destroyed (callsToSolve s cfg ++ [.solver_get_iterations_number s.solver]
      ++ teardownCalls s) = [s.solver, s.A, s.x, s.b, s.rsrc, s.config] := by
    simp [destroyed, callsToSolve, callsToRead, callsToSolver, callsToConfig, teardownCalls,
      Call.destroys]
  refine ⟨hc, hd, ?_, ⟨callsToSolve s cfg ++ [.solver_get_iterations_number s.solver], rfl, ?_⟩,
    rfl⟩
  · rw [hc, hd]
    have hrot : ([s.solver, s.A, s.x, s.b] ++ [s.rsrc, s.config]).Perm
        ([s.rsrc, s.config] ++ [s.solver, s.A, s.x, s.b]) := List.perm_append_comm
    exact hrot.trans (List.Perm.swap s.config s.rsrc [s.solver, s.A, s.x, s.b])
  · simp [callsToSolve, callsToRead, callsToSolver, callsToConfig, Call.isDestroy,
      Call.isFinalize]

/-- Instance of the amended C5 on an all-success library. -/
theorem C5_teardown_order_witness :
    created (run okStubs argvCfg).trace = [1, 2, 3, 4, 5, 6] ∧
    destroyed (run okStubs argvCfg).trace = [3, 4, 5, 6, 2, 1] ∧
    (run okStubs argvCfg).exit_code = 0 :=
  have h := C5_teardown_order okStubs argvCfg "cfg.json" [] rfl (by decide) (by decide)
  ⟨h.1, h.2.1, h.2.2.2.2⟩

/-- Claim C6: on a complete session where the iteration query stores `n`,
standard output is the version line, then the line `Number of iterations: n`,
then the completion line, and setup, solve and the query all receive the same
solver handle. -/
theorem C6_iterations_echoed (s : Stubs) (argv : Argv) (n : Int) (hp : argv.present)
    (hok : s.checkedOk) (hn : s.iters = n) :
    (run s argv).cout =
      banner s ++ ("Number of iterations: " ++ toString n ++ "\n") ++ "AMGX solve complete.\n" ∧
    (∃ line, banner s = line ++ "\n") ∧
    (run s argv).trace.filter Call.isSolverUse =
      [.solver_setup s.solver s.A, .solver_solve s.solver s.b s.x,
       .solver_get_iterations_number s.solver] := by
  cases ha : argv.args with
  | nil => simp [Argv.present, Argv.argc, ha] at hp
  | cons cfg rest =>
    rw [run_ok s argv cfg rest ha hok]
    refine ⟨by simp [hn, endl], ⟨_, rfl⟩, ?_⟩
    simp [callsToSolve, callsToRead, callsToSolver, callsToConfig, teardownCalls,
      Call.isSolverUse]

/-- Instance of C6 with 17 iterations. -/
theorem C6_iterations_echoed_witness :
    (run okStubs argvCfg).cout =
      "Using AMGX API version: 2.4.0\nNumber of iterations: 17\nAMGX solve complete.\n" ∧
    (run okStubs argvCfg).trace.filter Call.isSolverUse =
      [.solver_setup 3 4, .solver_solve 3 6 5, .solver_get_iterations_number 3] :=
  have h := C6_iterations_echoed okStubs argvCfg 17 (by decide) (by decide) rfl
  ⟨h.1.trans (by decide), h.2.2⟩

/-- Claim C7: in every run finalize is called at most once, and wherever it
occurs in the trace no destroy call follows it and the six destroy calls
precede it. -/
theorem C7_finalize_once_and_last (s : Stubs) (argv : Argv) :
    (run s argv).trace.count .finalize ≤ 1 ∧
    ∀ pre post : List Call, (run s argv).trace = pre ++ .finalize :: post →
      (∀ c ∈ post, c.isDestroy = false) ∧
      pre.filter Call.isDestroy =
        [.solver_destroy s.solver, .matrix_destroy s.A, .vector_destroy s.x,
         .vector_destroy s.b, .resources_destroy s.rsrc, .config_destroy s.config] := by
  by_cases hok : argv.present ∧ s.checkedOk
  · cases ha : argv.args with
    | nil => simp [Argv.present, Argv.argc, ha] at hok
    | cons cfg rest =>
      rw [run_ok s argv cfg rest ha hok.2]
      refine ⟨by simp [callsToSolve, callsToRead, callsToSolver, callsToConfig, teardownCalls],
        ?_⟩
      intro pre post ht
      have hsplit := split_at_last Call.finalize
        (callsToSolve s cfg ++ [.solver_get_iterations_number s.solver] ++
          [.solver_destroy s.solver, .matrix_destroy s.A, .vector_destroy s.x,
           .vector_destroy s.b, .resources_destroy s.rsrc, .config_destroy s.config])
        pre post
        (by simp [callsToSolve, callsToRead, callsToSolver, callsToConfig])
        (by rw [← ht]; simp [teardownCalls])
      rw [hsplit.1, hsplit.2]
      simp [callsToSolve, callsToRead, callsToSolver, callsToConfig, Call.isDestroy]
  · have hno := (run_not_ok s argv hok).2
    have hnf : Call.finalize ∉ (run s argv).trace := fun hm => by
      simpa [Call.isFinalize] using (hno _ hm).2
    refine ⟨by rw [List.count_eq_zero.mpr hnf]; exact Nat.zero_le 1, ?_⟩
    intro pre post ht
    exact absurd (by rw [ht]; simp) hnf

/-- Claim C8 fails as stated: when the two vector creations leave the same
handle value, that value is passed to a second destroy after its first. -/
theorem C8_counterexample :
    ¬ DestroyIsLastUse (run { okStubs with b := 5 } argvCfg).trace := by
  rw [← destroyIsLastUse_iff]
  decide

/-- Claim C8, amended: each destroy call is the last call passed its handle
value exactly when the run ends in failure (it then makes no destroy call) or
the six handle values are pairwise distinct. -/
theorem C8_destroy_last_use (s : Stubs) (argv : Argv) :
    DestroyIsLastUse (run s argv).trace ↔
      ((run s argv).exit_code ≠ 0 ∨
        [s.solver, s.A, s.x, s.b, s.rsrc, s.config].Nodup) := by
  rw [← destroyIsLastUse_iff]
  by_cases hok : argv.present ∧ s.checkedOk
  · cases ha : argv.args with
    | nil => simp [Argv.present, Argv.argc, ha] at hok
    | cons cfg rest =>
      rw [run_ok s argv cfg rest ha hok.2]
      simp [callsToSolve, callsToRead, callsToSolver, callsToConfig, teardownCalls,
        destroyIsLastUse, Call.destroys, Call.passed, EXIT_SUCCESS]
  · have h := run_not_ok s argv hok
    have hb : destroyIsLastUse (run s argv).trace = true := by
      rw [destroyIsLastUse_iff]
      intro pre post c hd ht hc
      have := (h.2 c (by rw [ht]; simp)).1
      cases c <;> simp [Call.destroys, Call.isDestroy] at hc this
    simp [hb, h.1, EXIT_FAILURE]

/-- Claim C9: on a complete session the trace ends with destroy solver,
matrix, x, b, resources, configuration, finalize, with no teardown call before
them and no error-string query at all, empty standard error and exit status
`EXIT_SUCCESS`, whatever these seven calls return; and when a checked call
fails the trace has none of the seven. -/
theorem C9_teardown_sequence (s : Stubs) (argv : Argv) :
    (argv.present ∧ s.checkedOk →
      (∃ pre, (run s argv).trace = pre ++
          [.solver_destroy s.solver, .matrix_destroy s.A, .vector_destroy s.x,
           .vector_destroy s.b, .resources_destroy s.rsrc, .config_destroy s.config,
           .finalize] ∧
        ∀ c ∈ pre, c.isDestroy = false ∧ c.isFinalize = false) ∧
      (∀ c ∈ (run s argv).trace, c.isErrorQuery = false) ∧
      (run s argv).cerr = "" ∧ (run s argv).exit_code = EXIT_SUCCESS) ∧
    (¬ s.checkedOk →
      ∀ c ∈ (run s argv).trace, c.isDestroy = false ∧ c.isFinalize = false) := by
  constructor
  · intro hok
    cases ha : argv.args with
    | nil => simp [Argv.present, Argv.argc, ha] at hok
    | cons cfg rest =>
      rw [run_ok s argv cfg rest ha hok.2]
      refine ⟨⟨callsToSolve s cfg ++ [.solver_get_iterations_number s.solver], rfl, ?_⟩,
        ?_, rfl, rfl⟩
      · simp [callsToSolve, callsToRead, callsToSolver, callsToConfig, Call.isDestroy,
          Call.isFinalize]
      · simp [callsToSolve, callsToRead, callsToSolver, callsToConfig, teardownCalls,
          Call.isErrorQuery]
  · intro hn
    exact (run_not_ok s argv (fun h => hn h.2)).2

/-- Instance of C9 on an all-success library and on a failing system read. -/
theorem C9_teardown_sequence_witness :
    ((∃ pre, (run okStubs argvCfg).trace = pre ++
          [.solver_destroy 3, .matrix_destroy 4, .vector_destroy 5, .vector_destroy 6,
           .resources_destroy 2, .config_destroy 1, .finalize] ∧
        ∀ c ∈ pre, c.isDestroy = false ∧ c.isFinalize = false) ∧
      (∀ c ∈ (run okStubs argvCfg).trace, c.isErrorQuery = false) ∧
      (run okStubs argvCfg).cerr = "" ∧ (run okStubs argvCfg).exit_code = EXIT_SUCCESS) ∧
    (∀ c ∈ (run { okStubs with rc_read_system := 4 } argvCfg).trace,
      c.isDestroy = false ∧ c.isFinalize = false) :=
  ⟨(C9_teardown_sequence okStubs argvCfg).1 (by decide),
   (C9_teardown_sequence { okStubs with rc_read_system := 4 } argvCfg).2 (by decide)⟩

/-- Claim C10: replacing the statuses of resource creation, matrix creation
and the two vector creations by any others leaves the whole outcome unchanged
(trace, both output streams, exit code), and in every trace each of these
creation calls is followed by a further library call that is not the
error-string query. -/
theorem C10_unchecked_creation (s : Stubs) (argv : Argv) (r1 r2 r3 r4 : AMGX_RC) :
    run { s with rc_resources_create := r1, rc_matrix_create := r2,
                 rc_vector_create_x := r3, rc_vector_create_b := r4 } argv = run s argv ∧
    continuesAfterCreate (run s argv).trace = true := by
  constructor
  · rw [run_eq, run_eq]
    rfl
  · rw [run_eq]
    cases ha : argv.args with
    | nil => simp [continuesAfterCreate]
    | cons cfg rest =>
      simp only []
      split_ifs <;>
      simp [fatal, callsToSolve, callsToRead, callsToSolver, callsToConfig, teardownCalls,
        continuesAfterCreate, Call.isUncheckedCreate, Call.isErrorQuery]

end EvalAMGX
